import Mathlib

/-!
Verification of the CAS academic-management backend's computational core:
attendance statistics (apps/asistencia/models.py), grading with late
penalty (apps/actividades/models.py), the committee-citation state
machine and numbering (apps/comite), and the notification dispatch
service (apps/notificaciones/services.py). Database rows are modelled
as Lean structures, Python Decimal arithmetic as exact rationals, and
Python `round(x, 2)` as banker's rounding to two decimal places.
-/

/-- Python's `round` to the nearest integer, ties to even (banker's rounding). -/
def roundHalfEven (q : ℚ) : ℤ :=
  let f := Int.floor q
  let frac := q - f
  if frac < 1/2 then f
  else if 1/2 < frac then f + 1
  else if f % 2 = 0 then f else f + 1

/-- Python's `round(x, 2)`: round to two decimal places, ties to even. -/
def round2 (q : ℚ) : ℚ := (roundHalfEven (q * 100) : ℚ) / 100

/-! ## apps/asistencia/models.py -/

/-- One row of `RegistroAsistencia`: attendance of one apprentice at one
roll-call, with its status string (`estado`). -/
structure RegistroAsistencia where
  llamado_asistencia : ℕ
  aprendiz : ℕ
  estado : String
deriving DecidableEq, Repr

/-- The declared status choices `RegistroAsistencia.ESTADOS_ASISTENCIA`. -/
def RegistroAsistencia.ESTADOS_ASISTENCIA : List (String × String) :=
  [("PRESENTE", "Presente"),
   ("AUSENTE", "Ausente"),
   ("JUSTIFICADO", "Justificado"),
   ("TARDE", "Llegó Tarde")]

/-- `LlamadoAsistencia.crear_registros_asistencia`: on creation of a roll-call,
one attendance record with status `SIN REGISTRAR` is bulk-created per active
apprentice of the cohort. -/
def LlamadoAsistencia.crear_registros_asistencia
    (llamado : ℕ) (aprendices : List ℕ) : List RegistroAsistencia :=
  aprendices.map fun a =>
    { llamado_asistencia := llamado, aprendiz := a, estado := "SIN REGISTRAR" }

/-- One row of `EstadisticaAsistencia`: the derived statistic keyed by
(apprentice, learning outcome, cohort). -/
structure EstadisticaAsistencia where
  aprendiz : ℕ
  resultado_aprendizaje : ℕ
  ficha : ℕ
  total_clases : ℕ
  clases_presentes : ℕ
  clases_ausentes : ℕ
  clases_justificadas : ℕ
  clases_tarde : ℕ
  porcentaje_asistencia : ℚ
deriving DecidableEq, Repr

/-- `EstadisticaAsistencia.calcular_porcentaje`: present, excused and late
classes count as attended; percentage is `round((efectivas/total)*100, 2)`
when `total_clases > 0`, else `0.00`. -/
def EstadisticaAsistencia.calcular_porcentaje
    (e : EstadisticaAsistencia) : EstadisticaAsistencia :=
  if 0 < e.total_clases then
    let clases_efectivas := e.clases_presentes + e.clases_justificadas + e.clases_tarde
    { e with porcentaje_asistencia :=
        round2 ((clases_efectivas : ℚ) / (e.total_clases : ℚ) * 100) }
  else
    { e with porcentaje_asistencia := 0 }

/-- `EstadisticaAsistencia.actualizar_estadisticas`: full recount over the
matching attendance records, then recompute the percentage and persist. -/
def EstadisticaAsistencia.actualizar_estadisticas
    (registros : List RegistroAsistencia) (e : EstadisticaAsistencia) :
    EstadisticaAsistencia :=
  EstadisticaAsistencia.calcular_porcentaje
    { e with
      total_clases := registros.length,
      clases_presentes := (registros.filter fun r => r.estado = "PRESENTE").length,
      clases_ausentes := (registros.filter fun r => r.estado = "AUSENTE").length,
      clases_justificadas := (registros.filter fun r => r.estado = "JUSTIFICADO").length,
      clases_tarde := (registros.filter fun r => r.estado = "TARDE").length }

/-- `EstadisticaAsistencia.nivel_riesgo`: risk tier from the stored percentage. -/
def EstadisticaAsistencia.nivel_riesgo (e : EstadisticaAsistencia) : String :=
  if 90 ≤ e.porcentaje_asistencia then "BAJO"
  else if 80 ≤ e.porcentaje_asistencia then "MEDIO"
  else if 70 ≤ e.porcentaje_asistencia then "ALTO"
  else "CRITICO"

/-- A statistic record with a given stored percentage (all keys and counts 0). -/
def mkEstadistica (q : ℚ) : EstadisticaAsistencia :=
  { aprendiz := 0, resultado_aprendizaje := 0, ficha := 0,
    total_clases := 0, clases_presentes := 0, clases_ausentes := 0,
    clases_justificadas := 0, clases_tarde := 0, porcentaje_asistencia := q }

/-- Claim C1: recomputing an attendance statistic over the full record set
stores percentage `round(100*(present+excused+late)/total, 2)` when the total
is positive, and `0.00` when the record set is empty (no error is raised:
the function is total). -/
theorem actualizar_estadisticas_porcentaje_formula
    (registros : List RegistroAsistencia) (e : EstadisticaAsistencia) :
    (EstadisticaAsistencia.actualizar_estadisticas registros e).porcentaje_asistencia =
      if 0 < registros.length then
        round2 (100 *
          (((registros.filter fun r => r.estado = "PRESENTE").length
            + (registros.filter fun r => r.estado = "JUSTIFICADO").length
            + (registros.filter fun r => r.estado = "TARDE").length : ℕ) : ℚ)
          / (registros.length : ℚ))
      else 0 := by
  unfold EstadisticaAsistencia.actualizar_estadisticas
    EstadisticaAsistencia.calcular_porcentaje
  split
  · simp only
    congr 1
    push_cast
    ring
  · rfl

/-- Claim C9: recomputing the statistic twice over an unchanged record set
yields the identical statistic record as recomputing it once. -/
theorem actualizar_estadisticas_idempotent
    (registros : List RegistroAsistencia) (e : EstadisticaAsistencia) :
    EstadisticaAsistencia.actualizar_estadisticas registros
        (EstadisticaAsistencia.actualizar_estadisticas registros e) =
      EstadisticaAsistencia.actualizar_estadisticas registros e := by
  unfold EstadisticaAsistencia.actualizar_estadisticas
    EstadisticaAsistencia.calcular_porcentaje
  split <;> rfl

/-- Claim C6: the risk tier is a function of the stored percentage with
inclusive lower bounds: ≥ 90 is BAJO (low), [80, 90) is MEDIO, [70, 80) is
ALTO, and below 70 is CRITICO. -/
theorem nivel_riesgo_tiers (e : EstadisticaAsistencia) :
    (90 ≤ e.porcentaje_asistencia → e.nivel_riesgo = "BAJO") ∧
    (80 ≤ e.porcentaje_asistencia → e.porcentaje_asistencia < 90 →
      e.nivel_riesgo = "MEDIO") ∧
    (70 ≤ e.porcentaje_asistencia → e.porcentaje_asistencia < 80 →
      e.nivel_riesgo = "ALTO") ∧
    (e.porcentaje_asistencia < 70 → e.nivel_riesgo = "CRITICO") := by
  unfold EstadisticaAsistencia.nivel_riesgo
  refine ⟨fun h => ?_, fun h1 h2 => ?_, fun h1 h2 => ?_, fun h => ?_⟩
  · simp [h]
  · rw [if_neg (by linarith), if_pos h1]
  · rw [if_neg (by linarith), if_neg (by linarith), if_pos h1]
  · rw [if_neg (by linarith), if_neg (by linarith), if_neg (by linarith)]

/-- Boundary witness for the risk tiers: 90.00 is BAJO, 89.99 MEDIO,
80.00 MEDIO, 79.99 ALTO, 70.00 ALTO, 69.99 CRITICO. -/
theorem nivel_riesgo_tiers_witness :
    (mkEstadistica 90).nivel_riesgo = "BAJO" ∧
    (mkEstadistica 89.99).nivel_riesgo = "MEDIO" ∧
    (mkEstadistica 80).nivel_riesgo = "MEDIO" ∧
    (mkEstadistica 79.99).nivel_riesgo = "ALTO" ∧
    (mkEstadistica 70).nivel_riesgo = "ALTO" ∧
    (mkEstadistica 69.99).nivel_riesgo = "CRITICO" :=
  ⟨(nivel_riesgo_tiers _).1 (by norm_num [mkEstadistica]),
   (nivel_riesgo_tiers _).2.1 (by norm_num [mkEstadistica]) (by norm_num [mkEstadistica]),
   (nivel_riesgo_tiers _).2.1 (by norm_num [mkEstadistica]) (by norm_num [mkEstadistica]),
   (nivel_riesgo_tiers _).2.2.1 (by norm_num [mkEstadistica]) (by norm_num [mkEstadistica]),
   (nivel_riesgo_tiers _).2.2.1 (by norm_num [mkEstadistica]) (by norm_num [mkEstadistica]),
   (nivel_riesgo_tiers _).2.2.2 (by norm_num [mkEstadistica])⟩

/-! ## apps/actividades/models.py -/

/-- The scoring configuration of an `Actividad`: maximum score and
late-penalty percentage (Python Decimals, modelled as rationals). -/
structure Actividad where
  puntaje_maximo : ℚ
  penalizacion_tardanza : ℚ
deriving DecidableEq, Repr

/-- An `EntregaActividad` (submission): its activity, its late flag and its
workflow state string. -/
structure EntregaActividad where
  actividad : Actividad
  es_entrega_tardia : Bool
  estado : String
deriving DecidableEq, Repr

/-- A `CalificacionActividad` (grade): raw score, computed percentage,
correction-required and approved flags. -/
structure CalificacionActividad where
  entrega : EntregaActividad
  puntaje_obtenido : ℚ
  porcentaje : ℚ
  requiere_correccion : Bool
  aprobada : Bool
deriving DecidableEq, Repr

/-- `CalificacionActividad.clean`: reject a raw score above the activity's
maximum with a `ValidationError`. -/
def CalificacionActividad.clean (c : CalificacionActividad) : Except String Unit :=
  if c.entrega.actividad.puntaje_maximo < c.puntaje_obtenido then
    Except.error "El puntaje obtenido no puede ser mayor al puntaje máximo de la actividad."
  else
    Except.ok ()

/-- `CalificacionActividad.save`: validate, compute the percentage, apply the
late penalty (overwriting the raw score with the post-penalty value), derive
the approved flag, and update the submission state. -/
def CalificacionActividad.save (c : CalificacionActividad) :
    Except String CalificacionActividad :=
  match c.clean with
  | Except.error e => Except.error e
  | Except.ok _ =>
    let c1 :=
      if 0 < c.entrega.actividad.puntaje_maximo then
        { c with porcentaje :=
            c.puntaje_obtenido / c.entrega.actividad.puntaje_maximo * 100 }
      else c
    let c2 :=
      if c1.entrega.es_entrega_tardia ∧ 0 < c1.entrega.actividad.penalizacion_tardanza then
        let penalizacion := c1.porcentaje * c1.entrega.actividad.penalizacion_tardanza / 100
        let porcentajePenalizado := max 0 (c1.porcentaje - penalizacion)
        { c1 with
          porcentaje := porcentajePenalizado,
          puntaje_obtenido :=
            porcentajePenalizado * c1.entrega.actividad.puntaje_maximo / 100 }
      else c1
    let c3 := { c2 with aprobada := decide (60 ≤ c2.porcentaje) }
    Except.ok
      { c3 with entrega :=
          { c3.entrega with
            estado := if c3.requiere_correccion then "DEVUELTA" else "CALIFICADA" } }

/-- `CalificacionActividad.calificacion_letra`: letter grade from the stored
percentage. -/
def CalificacionActividad.calificacion_letra (c : CalificacionActividad) : String :=
  if 90 ≤ c.porcentaje then "A"
  else if 80 ≤ c.porcentaje then "B"
  else if 70 ≤ c.porcentaje then "C"
  else if 60 ≤ c.porcentaje then "D"
  else "F"

/-- Claim C2: grading a late submission on an activity with positive late
penalty sets percentage to `max(0, p - p*penalty/100)` with
`p = 100*raw/maximum`, overwrites the raw score with
`percentage*maximum/100`, and classifies (approved flag, and the letter
property which reads the stored percentage) from the penalized percentage. -/
theorem calificacion_save_late_penalty (c : CalificacionActividad)
    (hl : c.entrega.es_entrega_tardia = true)
    (hpen : 0 < c.entrega.actividad.penalizacion_tardanza)
    (hmax : 0 < c.entrega.actividad.puntaje_maximo)
    (hval : c.puntaje_obtenido ≤ c.entrega.actividad.puntaje_maximo) :
    CalificacionActividad.save c =
      Except.ok
        { c with
          porcentaje :=
            max 0 (100 * c.puntaje_obtenido / c.entrega.actividad.puntaje_maximo
              - 100 * c.puntaje_obtenido / c.entrega.actividad.puntaje_maximo
                * c.entrega.actividad.penalizacion_tardanza / 100),
          puntaje_obtenido :=
            max 0 (100 * c.puntaje_obtenido / c.entrega.actividad.puntaje_maximo
              - 100 * c.puntaje_obtenido / c.entrega.actividad.puntaje_maximo
                * c.entrega.actividad.penalizacion_tardanza / 100)
              * c.entrega.actividad.puntaje_maximo / 100,
          aprobada :=
            decide (60 ≤ max 0 (100 * c.puntaje_obtenido / c.entrega.actividad.puntaje_maximo
              - 100 * c.puntaje_obtenido / c.entrega.actividad.puntaje_maximo
                * c.entrega.actividad.penalizacion_tardanza / 100)),
          entrega :=
            { c.entrega with
              estado := if c.requiere_correccion then "DEVUELTA" else "CALIFICADA" } } := by
  have hclean : c.clean = Except.ok () := by
    unfold CalificacionActividad.clean
    rw [if_neg (not_lt.mpr hval)]
  unfold CalificacionActividad.save
  rw [hclean]
  simp only [if_pos hmax, hl, true_and, if_pos hpen]
  have harg : c.puntaje_obtenido / c.entrega.actividad.puntaje_maximo * 100 =
      100 * c.puntaje_obtenido / c.entrega.actividad.puntaje_maximo := by ring
  have hsub : c.puntaje_obtenido / c.entrega.actividad.puntaje_maximo * 100
        - c.puntaje_obtenido / c.entrega.actividad.puntaje_maximo * 100
          * c.entrega.actividad.penalizacion_tardanza / 100 =
      100 * c.puntaje_obtenido / c.entrega.actividad.puntaje_maximo
        - 100 * c.puntaje_obtenido / c.entrega.actividad.puntaje_maximo
          * c.entrega.actividad.penalizacion_tardanza / 100 := by ring
  simp only [hsub]

/-- Witness for the late-penalty grading: raw score 8 of maximum 10 with
penalty 10% on a late submission yields percentage 72.00, raw score 7.2,
approved = true, letter = C. -/
theorem calificacion_save_late_penalty_witness :
    CalificacionActividad.save
        { entrega :=
            { actividad := { puntaje_maximo := 10, penalizacion_tardanza := 10 },
              es_entrega_tardia := true, estado := "ENVIADA" },
          puntaje_obtenido := 8, porcentaje := 0,
          requiere_correccion := false, aprobada := true } =
      Except.ok
        { entrega :=
            { actividad := { puntaje_maximo := 10, penalizacion_tardanza := 10 },
              es_entrega_tardia := true, estado := "CALIFICADA" },
          puntaje_obtenido := 7.2, porcentaje := 72,
          requiere_correccion := false, aprobada := true } ∧
    CalificacionActividad.calificacion_letra
        { entrega :=
            { actividad := { puntaje_maximo := 10, penalizacion_tardanza := 10 },
              es_entrega_tardia := true, estado := "CALIFICADA" },
          puntaje_obtenido := 7.2, porcentaje := 72,
          requiere_correccion := false, aprobada := true } = "C" :=
  ⟨(calificacion_save_late_penalty _ rfl (by norm_num) (by norm_num) (by norm_num)).trans
      (by norm_num),
   by norm_num [CalificacionActividad.calificacion_letra]⟩

/-- Claim C7: a grading attempt whose raw score exceeds the activity's
maximum is rejected with a validation error before any save occurs; the
score is not silently clamped. -/
theorem calificacion_save_rejects_over_maximum (c : CalificacionActividad)
    (h : c.entrega.actividad.puntaje_maximo < c.puntaje_obtenido) :
    CalificacionActividad.save c =
      Except.error
        "El puntaje obtenido no puede ser mayor al puntaje máximo de la actividad." := by
  unfold CalificacionActividad.save CalificacionActividad.clean
  rw [if_pos h]

/-- Witness for the over-maximum rejection: raw score 12 on a 10-point
activity is rejected. -/
theorem calificacion_save_rejects_over_maximum_witness :
    CalificacionActividad.save
        { entrega :=
            { actividad := { puntaje_maximo := 10, penalizacion_tardanza := 0 },
              es_entrega_tardia := false, estado := "ENVIADA" },
          puntaje_obtenido := 12, porcentaje := 0,
          requiere_correccion := false, aprobada := true } =
      Except.error
        "El puntaje obtenido no puede ser mayor al puntaje máximo de la actividad." :=
  calificacion_save_rejects_over_maximum _ (by norm_num)

/-! ## apps/comite/models.py and apps/comite/serializers.py -/

/-- One row of `CitacionComite`: citation number, status string, creation
year (from the auto-set `fecha_creacion`), and the two nullable timestamps.
Timestamps are abstract instants modelled as naturals. -/
structure CitacionComite where
  numero_citacion : String
  estado : String
  fecha_creacion_year : ℕ
  fecha_notificacion : Option ℕ
  fecha_realizacion : Option ℕ
deriving DecidableEq, Repr

/-- Python's `f"{n:04d}"`: decimal digits of `n`, left-padded with zeros to
at least four characters. -/
def pad4 (n : ℕ) : String :=
  let s := toString n
  String.mk (List.replicate (4 - s.length) '0') ++ s

/-- `CitacionComite.save`: assign the year-scoped citation number when the
field is still empty (count of citations created this year, plus one), and
stamp `fecha_notificacion` / `fecha_realizacion` when the corresponding
state is being written and the timestamp is still unset. `db` is the set of
already-persisted citations, `year` / `now` the current clock. -/
def CitacionComite.save (db : List CitacionComite) (year now : ℕ)
    (c : CitacionComite) : CitacionComite :=
  let c1 :=
    if c.numero_citacion = "" then
      let count := (db.filter fun x => x.fecha_creacion_year = year).length + 1
      { c with numero_citacion := "CIT-" ++ toString year ++ "-" ++ pad4 count }
    else c
  let c2 :=
    if c1.estado = "NOTIFICADA" ∧ c1.fecha_notificacion = none then
      { c1 with fecha_notificacion := some now }
    else c1
  if c2.estado = "REALIZADA" ∧ c2.fecha_realizacion = none then
    { c2 with fecha_realizacion := some now }
  else c2

/-- `CitacionComite.marcar_como_notificada`: set the state to NOTIFICADA,
assign `fecha_notificacion := now` unconditionally, then save. -/
def CitacionComite.marcar_como_notificada (db : List CitacionComite)
    (year now : ℕ) (c : CitacionComite) : CitacionComite :=
  CitacionComite.save db year now
    { c with estado := "NOTIFICADA", fecha_notificacion := some now }

/-- `CitacionComite.marcar_como_realizada`: set the state to REALIZADA,
assign `fecha_realizacion := now` unconditionally, then save. -/
def CitacionComite.marcar_como_realizada (db : List CitacionComite)
    (year now : ℕ) (c : CitacionComite) : CitacionComite :=
  CitacionComite.save db year now
    { c with estado := "REALIZADA", fecha_realizacion := some now }

/-- The `transiciones_validas` mapping of
`CitacionComiteEstadoSerializer.validate_estado` (a Python dict read with
`.get(estado_actual, [])`). -/
def transiciones_validas (estado : String) : List String :=
  if estado = "PENDIENTE" then ["NOTIFICADA", "CANCELADA"]
  else if estado = "NOTIFICADA" then ["REALIZADA", "CANCELADA"]
  else if estado = "REALIZADA" then []
  else if estado = "CANCELADA" then []
  else []

/-- `CitacionComiteEstadoSerializer.validate_estado`: accept the requested
state only when it is a valid transition from the current state, else raise
a `ValidationError` naming the attempted transition. -/
def validate_estado (estado_actual value : String) : Except String String :=
  if value ∈ transiciones_validas estado_actual then Except.ok value
  else Except.error ("No se puede cambiar de " ++ estado_actual ++ " a " ++ value ++ ".")

/-- Claim C3: a status change is accepted exactly when the pair
(current, requested) is in the adjacency map PENDIENTE → {NOTIFICADA,
CANCELADA}, NOTIFICADA → {REALIZADA, CANCELADA} (REALIZADA and CANCELADA
terminal); every other request is rejected with a validation error naming
the attempted transition. -/
theorem validate_estado_adjacency (estado_actual value : String) :
    (validate_estado estado_actual value = Except.ok value ↔
      ((estado_actual = "PENDIENTE" ∧ (value = "NOTIFICADA" ∨ value = "CANCELADA")) ∨
       (estado_actual = "NOTIFICADA" ∧ (value = "REALIZADA" ∨ value = "CANCELADA")))) ∧
    (validate_estado estado_actual value ≠ Except.ok value →
      validate_estado estado_actual value =
        Except.error
          ("No se puede cambiar de " ++ estado_actual ++ " a " ++ value ++ ".")) := by
  constructor
  · unfold validate_estado transiciones_validas
    by_cases h1 : estado_actual = "PENDIENTE" <;>
      by_cases h2 : estado_actual = "NOTIFICADA" <;>
        simp [h1, h2] <;> try tauto
  · intro hne
    unfold validate_estado at hne ⊢
    by_cases hmem : value ∈ transiciones_validas estado_actual
    · exact absurd (if_pos hmem) hne
    · exact if_neg hmem

/-- Witness for the transition validation: PENDIENTE → NOTIFICADA is
accepted, and PENDIENTE → REALIZADA is rejected naming the transition. -/
theorem validate_estado_adjacency_witness :
    validate_estado "PENDIENTE" "NOTIFICADA" = Except.ok "NOTIFICADA" ∧
    validate_estado "PENDIENTE" "REALIZADA" =
      Except.error "No se puede cambiar de PENDIENTE a REALIZADA." :=
  ⟨(validate_estado_adjacency "PENDIENTE" "NOTIFICADA").1.mpr (by simp),
   (validate_estado_adjacency "PENDIENTE" "REALIZADA").2
     (by simp [validate_estado, transiciones_validas])⟩

/-- Counterexample to claim C5: `marcar_como_notificada` assigns the current
time over an already-set notification timestamp. A citation notified at
time 1, re-marked as notified at time 5, ends with timestamp 5, not 1. -/
theorem marcar_como_notificada_overwrites :
    (CitacionComite.marcar_como_notificada [] 2024 5
        { numero_citacion := "CIT-2024-0001", estado := "NOTIFICADA",
          fecha_creacion_year := 2024, fecha_notificacion := some 1,
          fecha_realizacion := none }).fecha_notificacion = some 5 ∧
    some 5 ≠ some 1 := by
  constructor
  · rfl
  · decide

/-- Claim C5 amended: on the plain `save` path the timestamps are indeed
stamped at most once (an already-set `fecha_notificacion` or
`fecha_realizacion` is never overwritten, and entering the state with the
timestamp unset stamps it); but the helper methods `marcar_como_notificada`
and `marcar_como_realizada` assign the current time unconditionally before
saving, overwriting any earlier timestamp. -/
theorem citacion_timestamps_save_once (db : List CitacionComite)
    (year now t : ℕ) (c : CitacionComite) :
    (c.fecha_notificacion = some t →
      (CitacionComite.save db year now c).fecha_notificacion = some t) ∧
    (c.fecha_realizacion = some t →
      (CitacionComite.save db year now c).fecha_realizacion = some t) ∧
    (c.estado = "NOTIFICADA" → c.fecha_notificacion = none →
      (CitacionComite.save db year now c).fecha_notificacion = some now) ∧
    (c.estado = "REALIZADA" → c.fecha_realizacion = none →
      (CitacionComite.save db year now c).fecha_realizacion = some now) ∧
    (CitacionComite.marcar_como_notificada db year now c).fecha_notificacion = some now ∧
    (CitacionComite.marcar_como_realizada db year now c).fecha_realizacion = some now := by
  unfold CitacionComite.marcar_como_notificada CitacionComite.marcar_como_realizada
    CitacionComite.save
  refine ⟨fun h => ?_, fun h => ?_, fun h1 h2 => ?_, fun h1 h2 => ?_, ?_, ?_⟩ <;>
    repeat' (split <;> simp_all)

/-- Witness for the once-only save path: a citation already notified at
time 3 keeps timestamp 3 across a save in the notified state, and a pending
one entering NOTIFICADA with no timestamp gets stamped with the clock. -/
theorem citacion_timestamps_save_once_witness :
    (CitacionComite.save [] 2024 9
        { numero_citacion := "CIT-2024-0001", estado := "NOTIFICADA",
          fecha_creacion_year := 2024, fecha_notificacion := some 3,
          fecha_realizacion := none }).fecha_notificacion = some 3 ∧
    (CitacionComite.save [] 2024 9
        { numero_citacion := "CIT-2024-0002", estado := "NOTIFICADA",
          fecha_creacion_year := 2024, fecha_notificacion := none,
          fecha_realizacion := none }).fecha_notificacion = some 9 :=
  ⟨(citacion_timestamps_save_once [] 2024 9 3 _).1 rfl,
   (citacion_timestamps_save_once [] 2024 9 0 _).2.2.1 rfl rfl⟩

/-- A freshly constructed citation: empty number, initial PENDIENTE state,
creation year stamped by the database clock. -/
def nuevaCitacion (year : ℕ) : CitacionComite :=
  { numero_citacion := "", estado := "PENDIENTE", fecha_creacion_year := year,
    fecha_notificacion := none, fecha_realizacion := none }

/-- Serial creation of `n` citations in year `year` on top of the persisted
set `db`: each step saves a fresh citation against the rows existing so far
and appends it. -/
def crear_citaciones_serial (year now : ℕ) (db : List CitacionComite) :
    ℕ → List CitacionComite
  | 0 => db
  | n + 1 =>
    let db1 := crear_citaciones_serial year now db n
    db1 ++ [CitacionComite.save db1 year now (nuevaCitacion year)]

lemma citacion_save_fecha_creacion_year (db : List CitacionComite)
    (year now : ℕ) (c : CitacionComite) :
    (CitacionComite.save db year now c).fecha_creacion_year = c.fecha_creacion_year := by
  unfold CitacionComite.save
  dsimp only
  repeat' split
  all_goals rfl

lemma citacion_save_numero_eq (db : List CitacionComite) (year now : ℕ)
    (c : CitacionComite) :
    (CitacionComite.save db year now c).numero_citacion =
      if c.numero_citacion = "" then
        "CIT-" ++ toString year ++ "-"
          ++ pad4 ((db.filter fun x => x.fecha_creacion_year = year).length + 1)
      else c.numero_citacion := by
  unfold CitacionComite.save
  dsimp only
  repeat' split
  all_goals simp_all

lemma crear_citaciones_serial_count (year now : ℕ) (db : List CitacionComite)
    (n : ℕ) :
    ((crear_citaciones_serial year now db n).filter
        fun x => x.fecha_creacion_year = year).length =
      (db.filter fun x => x.fecha_creacion_year = year).length + n := by
  induction n with
  | zero => rfl
  | succ n ih =>
    simp only [crear_citaciones_serial, List.filter_append, List.length_append, ih]
    have hy : (CitacionComite.save (crear_citaciones_serial year now db n) year now
        (nuevaCitacion year)).fecha_creacion_year = year :=
      citacion_save_fecha_creacion_year _ _ _ _
    simp [List.filter, hy]
    omega

/-- Claim C8: the citation number is assigned exactly once, at first save
(a nonempty number is never rewritten), and equals `CIT-YEAR-NNNN` where
`NNNN` is the count of citations already created in the same calendar year
plus one, zero-padded to 4 digits; under serial creation starting from a
year with no citations, the citation created at step m+1 gets sequence m+1. -/
theorem numero_citacion_assignment (db : List CitacionComite) (year now : ℕ)
    (c : CitacionComite) :
    (c.numero_citacion = "" →
      (CitacionComite.save db year now c).numero_citacion =
        "CIT-" ++ toString year ++ "-"
          ++ pad4 ((db.filter fun x => x.fecha_creacion_year = year).length + 1)) ∧
    (c.numero_citacion ≠ "" →
      (CitacionComite.save db year now c).numero_citacion = c.numero_citacion) ∧
    ((db.filter fun x => x.fecha_creacion_year = year).length = 0 →
      ∀ m, (CitacionComite.save (crear_citaciones_serial year now db m) year now
          (nuevaCitacion year)).numero_citacion =
        "CIT-" ++ toString year ++ "-" ++ pad4 (m + 1)) := by
  refine ⟨fun h => ?_, fun h => ?_, fun h0 m => ?_⟩
  · rw [citacion_save_numero_eq, if_pos h]
  · rw [citacion_save_numero_eq, if_neg h]
  · rw [citacion_save_numero_eq]
    simp [nuevaCitacion, crear_citaciones_serial_count, h0]

/-- Witness for citation numbering: with an empty table, the first citation
of 2025 gets number `CIT-2025-0001` and the second (created serially) gets
`CIT-2025-0002`; a citation whose number is already set keeps it. -/
theorem numero_citacion_assignment_witness :
    (CitacionComite.save [] 2025 0 (nuevaCitacion 2025)).numero_citacion =
      "CIT-2025-0001" ∧
    (CitacionComite.save (crear_citaciones_serial 2025 0 [] 1) 2025 0
        (nuevaCitacion 2025)).numero_citacion = "CIT-2025-0002" ∧
    (CitacionComite.save [] 2025 0
        { nuevaCitacion 2025 with numero_citacion := "CIT-2024-0007" }).numero_citacion =
      "CIT-2024-0007" :=
  ⟨((numero_citacion_assignment [] 2025 0 (nuevaCitacion 2025)).1 rfl).trans (by decide),
   (((numero_citacion_assignment [] 2025 0 (nuevaCitacion 2025)).2.2 rfl 1)).trans (by decide),
   (numero_citacion_assignment [] 2025 0 _).2.1 (by decide)⟩

/-! ## apps/notificaciones/models.py and apps/notificaciones/services.py -/

/-- A recipient (`Usuario`): identifier and email address, `""` when no
email is configured (Python falsy). -/
structure Usuario where
  id : ℕ
  email : String
deriving DecidableEq, Repr

/-- One row of `ConfiguracionNotificacion`: per-user channel switches,
per-type switches, active hours and active weekdays. -/
structure ConfiguracionNotificacion where
  notificaciones_push : Bool
  notificaciones_email : Bool
  nueva_actividad : Bool
  actividad_valorada : Bool
  citacion_comite : Bool
  alta_inasistencia : Bool
  bajo_rendimiento : Bool
  recordatorios : Bool
  hora_inicio : ℕ
  hora_fin : ℕ
  dias_activos : List ℕ
deriving DecidableEq, Repr

/-- The `tipo_map` lookup inside `puede_recibir_notificacion`: the per-type
switch, `none` for a type string outside the map. -/
def ConfiguracionNotificacion.tipo_map (cfg : ConfiguracionNotificacion)
    (tipo : String) : Option Bool :=
  if tipo = "NUEVA_ACTIVIDAD" then some cfg.nueva_actividad
  else if tipo = "ACTIVIDAD_VALORADA" then some cfg.actividad_valorada
  else if tipo = "CITACION_COMITE" then some cfg.citacion_comite
  else if tipo = "ALTA_INASISTENCIA" then some cfg.alta_inasistencia
  else if tipo = "BAJO_RENDIMIENTO" then some cfg.bajo_rendimiento
  else if tipo = "RECORDATORIO" then some cfg.recordatorios
  else none

/-- `ConfiguracionNotificacion.puede_recibir_notificacion`: false when both
channels are off, when the specific type is switched off, when the current
time lies outside the active hours, or when the weekday list is nonempty
and excludes the current weekday. -/
def ConfiguracionNotificacion.puede_recibir_notificacion
    (cfg : ConfiguracionNotificacion) (tipo : String)
    (now_time now_weekday : ℕ) : Bool :=
  if !cfg.notificaciones_push && !cfg.notificaciones_email then false
  else if (cfg.tipo_map tipo).getD true = false then false
  else if !(decide (cfg.hora_inicio ≤ now_time) && decide (now_time ≤ cfg.hora_fin)) then false
  else if !cfg.dias_activos.isEmpty && !cfg.dias_activos.contains now_weekday then false
  else true

/-- A created `Notificacion` row with its per-channel delivery flags. -/
structure Notificacion where
  usuario : Usuario
  tipo : String
  titulo : String
  mensaje : String
  enviada_push : Bool
  enviada_email : Bool
deriving DecidableEq, Repr

/-- The request-time environment of `NotificacionService`: whether the
`TipoNotificacion` row exists and is active, the clock, each user's
(get-or-created) configuration, and whether the email backend delivers to a
given address. -/
structure EnvNotificaciones where
  tipo_activo : Bool
  now_time : ℕ
  now_weekday : ℕ
  config_de : Usuario → ConfiguracionNotificacion
  send_mail_ok : String → Bool

/-- `NotificacionService._enviar_email`: false when the user has no email;
otherwise the outcome of the email backend (an exception there is caught,
logged to the history, and turned into `false`). -/
def NotificacionService.enviar_email (env : EnvNotificaciones) (u : Usuario) : Bool :=
  if u.email = "" then false
  else env.send_mail_ok u.email

/-- `NotificacionService.enviar_notificacion`: `none` when the notification
type does not exist or the user's configuration gates the send (unless
forced); otherwise the created notification, with the channel flags set by
the per-channel attempts. A channel failure does not make the result `none`. -/
def NotificacionService.enviar_notificacion (env : EnvNotificaciones)
    (usuario : Usuario) (tipo titulo mensaje : String) (forzar_envio : Bool) :
    Option Notificacion :=
  if env.tipo_activo = false then none
  else if forzar_envio = false ∧
      (env.config_de usuario).puede_recibir_notificacion tipo
        env.now_time env.now_weekday = false then none
  else
    let n : Notificacion :=
      { usuario := usuario, tipo := tipo, titulo := titulo, mensaje := mensaje,
        enviada_push := false, enviada_email := false }
    let n :=
      if forzar_envio || (env.config_de usuario).notificaciones_push then
        { n with enviada_push := true }
      else n
    let n :=
      if forzar_envio || (env.config_de usuario).notificaciones_email then
        { n with enviada_email := NotificacionService.enviar_email env usuario }
      else n
    some n

/-- The `{enviadas, fallidas, total}` dictionary returned by the bulk send. -/
structure ResultadoMasivo where
  enviadas : ℕ
  fallidas : ℕ
  total : ℕ
deriving DecidableEq, Repr

/-- `NotificacionService.enviar_notificacion_masiva`: loop over the
recipients, counting a send as `enviada` when `enviar_notificacion` returned
a notification and `fallida` otherwise; one recipient's failure does not
stop the loop. -/
def NotificacionService.enviar_notificacion_masiva (env : EnvNotificaciones)
    (usuarios : List Usuario) (tipo titulo mensaje : String) : ResultadoMasivo :=
  let counts := usuarios.foldl
    (fun (acc : ℕ × ℕ) usuario =>
      match NotificacionService.enviar_notificacion env usuario tipo titulo mensaje false with
      | some _ => (acc.1 + 1, acc.2)
      | none => (acc.1, acc.2 + 1))
    (0, 0)
  { enviadas := counts.1, fallidas := counts.2, total := usuarios.length }

/-- A fully permissive notification configuration. -/
def configPermisiva : ConfiguracionNotificacion :=
  { notificaciones_push := true, notificaciones_email := true,
    nueva_actividad := true, actividad_valorada := true, citacion_comite := true,
    alta_inasistencia := true, bajo_rendimiento := true, recordatorios := true,
    hora_inicio := 0, hora_fin := 1440, dias_activos := [] }

/-- A configuration with every channel and type switched off. -/
def configBloqueada : ConfiguracionNotificacion :=
  { configPermisiva with notificaciones_push := false, notificaciones_email := false }

/-- An environment where the type exists and the email backend accepts
every nonempty address; user 3 has no email address. -/
def envEjemplo : EnvNotificaciones :=
  { tipo_activo := true, now_time := 600, now_weekday := 2,
    config_de := fun _ => configPermisiva,
    send_mail_ok := fun _ => true }

/-- Counterexample to claim C4: in a bulk send to three recipients of whom
exactly one (user 3) has no reachable email channel — no email address, all
configurations permissive — every recipient still yields a created
notification, so the counts are {enviadas: 3, fallidas: 0, total: 3}, not
{enviadas: 2, fallidas: 1, total: 3}: the email-channel failure is logged
but does not count the recipient as failed. -/
theorem enviar_masiva_email_failure_counted_as_sent :
    (Usuario.mk 3 "").email = "" ∧
    (Usuario.mk 1 "a@x.co").email ≠ "" ∧ (Usuario.mk 2 "b@x.co").email ≠ "" ∧
    NotificacionService.enviar_email envEjemplo (Usuario.mk 3 "") = false ∧
    NotificacionService.enviar_notificacion_masiva envEjemplo
        [Usuario.mk 1 "a@x.co", Usuario.mk 3 "", Usuario.mk 2 "b@x.co"]
        "NUEVA_ACTIVIDAD" "t" "m" =
      { enviadas := 3, fallidas := 0, total := 3 } ∧
    ({ enviadas := 3, fallidas := 0, total := 3 } : ResultadoMasivo) ≠
      { enviadas := 2, fallidas := 1, total := 3 } := by
  refine ⟨rfl, ?_, ?_, rfl, rfl, ?_⟩ <;> decide

/-- Claim C4 amended: a recipient counts as `fallida` only when no
notification is created for them (missing type or, absent the force flag, a
configuration that gates the send); a recipient whose email channel fails
still counts as `enviada`. For a bulk send to 3 recipients of whom exactly
one is gated off by configuration, the counts are
{enviadas: 2, fallidas: 1, total: 3}, and the gated recipient does not
prevent the sends to the other two. -/
theorem enviar_masiva_counts (env : EnvNotificaciones) (u1 u2 u3 : Usuario)
    (tipo titulo mensaje : String)
    (hact : env.tipo_activo = true)
    (h1 : (env.config_de u1).puede_recibir_notificacion tipo
      env.now_time env.now_weekday = true)
    (h2 : (env.config_de u2).puede_recibir_notificacion tipo
      env.now_time env.now_weekday = true)
    (h3 : (env.config_de u3).puede_recibir_notificacion tipo
      env.now_time env.now_weekday = false) :
    NotificacionService.enviar_notificacion_masiva env [u1, u3, u2]
        tipo titulo mensaje =
      { enviadas := 2, fallidas := 1, total := 3 } ∧
    (NotificacionService.enviar_notificacion env u1 tipo titulo mensaje false).isSome ∧
    (NotificacionService.enviar_notificacion env u2 tipo titulo mensaje false).isSome := by
  unfold NotificacionService.enviar_notificacion_masiva
    NotificacionService.enviar_notificacion
  simp [hact, h1, h2, h3]

/-- Witness for the amended bulk-send counts: recipients 1 and 2 permissive,
recipient 3 fully gated off, type active. -/
theorem enviar_masiva_counts_witness :
    NotificacionService.enviar_notificacion_masiva
        { envEjemplo with config_de := fun u => if u.id = 3 then configBloqueada else configPermisiva }
        [Usuario.mk 1 "a@x.co", Usuario.mk 3 "c@x.co", Usuario.mk 2 "b@x.co"]
        "NUEVA_ACTIVIDAD" "t" "m" =
      { enviadas := 2, fallidas := 1, total := 3 } :=
  (enviar_masiva_counts _ (Usuario.mk 1 "a@x.co") (Usuario.mk 2 "b@x.co")
    (Usuario.mk 3 "c@x.co") "NUEVA_ACTIVIDAD" "t" "m"
    rfl (by decide) (by decide) (by decide)).1

/-- Claim C10: a new roll-call bulk-creates one record with status
`SIN REGISTRAR` per active apprentice; this status is outside the declared
`ESTADOS_ASISTENCIA` choices, so such records count in the statistic's total
but in none of the four per-status counts (hence the counts need not sum to
the total), and the stored percentage is exactly what it would be if the
record were an unexcused absence (`AUSENTE`). -/
theorem sin_registrar_records (llamado : ℕ) (aprendices : List ℕ)
    (e : EstadisticaAsistencia) (rs1 rs2 : List RegistroAsistencia)
    (r : RegistroAsistencia) (hr : r.estado = "SIN REGISTRAR") :
    (∀ reg ∈ LlamadoAsistencia.crear_registros_asistencia llamado aprendices,
      reg.estado = "SIN REGISTRAR") ∧
    (LlamadoAsistencia.crear_registros_asistencia llamado aprendices).length =
      aprendices.length ∧
    "SIN REGISTRAR" ∉ RegistroAsistencia.ESTADOS_ASISTENCIA.map Prod.fst ∧
    ((EstadisticaAsistencia.actualizar_estadisticas
        (LlamadoAsistencia.crear_registros_asistencia llamado aprendices) e).total_clases =
        aprendices.length ∧
      (EstadisticaAsistencia.actualizar_estadisticas
        (LlamadoAsistencia.crear_registros_asistencia llamado aprendices) e).clases_presentes = 0 ∧
      (EstadisticaAsistencia.actualizar_estadisticas
        (LlamadoAsistencia.crear_registros_asistencia llamado aprendices) e).clases_ausentes = 0 ∧
      (EstadisticaAsistencia.actualizar_estadisticas
        (LlamadoAsistencia.crear_registros_asistencia llamado aprendices) e).clases_justificadas = 0 ∧
      (EstadisticaAsistencia.actualizar_estadisticas
        (LlamadoAsistencia.crear_registros_asistencia llamado aprendices) e).clases_tarde = 0) ∧
    (EstadisticaAsistencia.actualizar_estadisticas (rs1 ++ r :: rs2) e).porcentaje_asistencia =
      (EstadisticaAsistencia.actualizar_estadisticas
        (rs1 ++ { r with estado := "AUSENTE" } :: rs2) e).porcentaje_asistencia := by
  refine ⟨?_, ?_, ?_, ?_, ?_⟩
  · intro reg hreg
    unfold LlamadoAsistencia.crear_registros_asistencia at hreg
    obtain ⟨a, _, rfl⟩ := List.mem_map.mp hreg
    rfl
  · simp [LlamadoAsistencia.crear_registros_asistencia]
  · decide
  · unfold EstadisticaAsistencia.actualizar_estadisticas
      EstadisticaAsistencia.calcular_porcentaje
      LlamadoAsistencia.crear_registros_asistencia
    split <;> simp [List.filter_map]
  · rw [actualizar_estadisticas_porcentaje_formula,
      actualizar_estadisticas_porcentaje_formula]
    simp [List.filter_append, hr]

/-- Witness for the SIN REGISTRAR behaviour: with one roll-call record still
unregistered, the percentage over the one-record set equals the percentage
with that record replaced by an unexcused absence. -/
theorem sin_registrar_records_witness :
    ({ llamado_asistencia := 7, aprendiz := 1, estado := "SIN REGISTRAR" } :
        RegistroAsistencia).estado = "SIN REGISTRAR" ∧
    (EstadisticaAsistencia.actualizar_estadisticas
        ([] ++ ({ llamado_asistencia := 7, aprendiz := 1, estado := "SIN REGISTRAR" } :
          RegistroAsistencia) :: []) (mkEstadistica 0)).porcentaje_asistencia =
      (EstadisticaAsistencia.actualizar_estadisticas
        ([] ++ ({ llamado_asistencia := 7, aprendiz := 1, estado := "AUSENTE" } :
          RegistroAsistencia) :: []) (mkEstadistica 0)).porcentaje_asistencia :=
  ⟨rfl, (sin_registrar_records 7 [1, 2] (mkEstadistica 0) [] []
    { llamado_asistencia := 7, aprendiz := 1, estado := "SIN REGISTRAR" } rfl).2.2.2.2⟩
